import Mathlib

/-!
Verification of the `panda_desk` control/session client (`src/panda_desk/desk.py`)
against its natural-language specification.

The Python module is shallowly embedded: pure computations (password encoding,
token store merging, brake/button predicates) become Lean functions; the
effectful `take_control` flow becomes a pure function over an explicit
environment describing the device's responses (active-token query result,
token grant, safety timeout, button-press arrival time), returning the call's
result together with the list of HTTP requests it issued and the state of the
token store and desk afterwards.
-/

namespace PandaDesk

/-- The per-host control token record, mirroring the `Token` dataclass
(`desk.py` lines 34-41): `id`, `owned_by` and `token` all default to `''`. -/
structure Token where
  id : String := ""
  owned_by : String := ""
  token : String := ""
deriving DecidableEq, Repr

/-- Outcome of `Desk._request` (`desk.py` lines 762-786) as a function of the
HTTP response: the code raises `ConnectionError(response.text)` exactly when
`response.status_code != 200`, and otherwise returns the response. The
response is embedded as its (status, body) pair. -/
def requestOutcome (statusCode : Nat) (text : String) : Except String (Nat × String) :=
  if statusCode != 200 then .error text else .ok (statusCode, text)

/-- The `activeToken` object of the `GET /admin/api/control-token` response:
a numeric `id` and an `ownedBy` string (cf. the payload example in
`general_system_status`, `desk.py` lines 428-435). -/
structure ActiveTokenInfo where
  id : Nat
  ownedBy : String
deriving DecidableEq, Repr

/-- `Desk._get_active_token` (`desk.py` lines 723-732) as a function of the
legacy flag and of the `activeToken` field of the device response: a fresh
empty `Token()` is returned when legacy or when `activeToken` is null;
otherwise `id` is `str(...)` of the numeric id and `owned_by` is copied. -/
def get_active_token (legacy : Bool) (resp : Option ActiveTokenInfo) : Token :=
  if legacy then {} else
    match resp with
    | none => {}
    | some a => { id := toString a.id, owned_by := a.ownedBy, token := "" }

/-- The mutable attributes of a `Desk` instance relevant to control arbitration
(`desk.py` lines 64-87). -/
structure DeskState where
  hostname : String
  platform : String
  legacy : Bool
  logged_in : Bool
  username : String
  token : Token
deriving DecidableEq, Repr

/-- ASCII lowercasing, modelling `str.lower()` on the platform names the
constructor accepts (all ASCII). -/
def lowerChar (c : Char) : Char :=
  if 'A' ≤ c ∧ c ≤ 'Z' then Char.ofNat (c.toNat + 32) else c

/-- ASCII `str.lower()`. -/
def lowerStr (s : String) : String := ⟨s.data.map lowerChar⟩

/-- Accepted aliases for the legacy platform (`desk.py` lines 69-71). -/
def pandaAliases : List String := ["panda", "fer", "franka_emika_robot", "frankaemikarobot"]

/-- Accepted aliases for the FR3 platform (`desk.py` line 73). -/
def fr3Aliases : List String := ["fr3", "frankaresearch3", "franka_research_3"]

/-- `Desk.__init__` (`desk.py` lines 64-87): validates the lowercased platform
name (raising `ValueError`, embedded as `none`, otherwise), sets
`self._legacy = False`, `self._logged_in = False`, `self._username = 'Not set'`,
and finally `self._platform = platform` (line 84 stores the *raw* argument,
overwriting the normalisation of lines 72/74). The token loaded from the store
is passed in as `loaded`. -/
def mkDesk (hostname platform : String) (loaded : Token) : Option DeskState :=
  if pandaAliases.contains (lowerStr platform) || fr3Aliases.contains (lowerStr platform) then
    some { hostname := hostname, platform := platform, legacy := false,
           logged_in := false, username := "Not set", token := loaded }
  else
    none

/-- `Desk.check_has_control` (`desk.py` lines 160-162): fetch the active token
and compare its id with the locally held token's id. -/
def check_has_control (d : DeskState) (resp : Option ActiveTokenInfo) : Bool :=
  d.token.id == (get_active_token d.legacy resp).id

/-! ## Token store -/

/-- The on-disk record set of `TOKEN_PATH`: hostname-keyed sections, each a
`Token` record, in file order (configparser keeps insertion order and has no
duplicate sections). -/
abbrev TokenStore := List (String × Token)

/-- The filesystem state the token store lives in: whether the parent
directory of `TOKEN_PATH` exists, and the file's record set (`none` when the
file does not exist). -/
structure FsState where
  dirExists : Bool
  file : Option TokenStore
deriving DecidableEq, Repr

/-- The record set `configparser.ConfigParser` holds after `_load_token` /
`_save_token` call `config.read`: empty when the file does not exist. -/
def loadRecords (fs : FsState) : TokenStore := fs.file.getD []

/-- `config[self._hostname] = {...}` (`desk.py` lines 752-756): the
configparser dict update — replace the host's section in place when present
(sections are duplicate-free), append it otherwise. -/
def upsert : TokenStore → String → Token → TokenStore
  | [], host, t => [(host, t)]
  | p :: rest, host, t =>
      if p.1 == host then (host, t) :: rest else p :: upsert rest host t

/-- `Desk._save_token` (`desk.py` lines 747-760), filesystem part: read the
existing record set (if the file exists), upsert this host's section,
`os.makedirs(..., exist_ok=True)` the parent directory, and write all
sections back. -/
def save_token (fs : FsState) (host : String) (t : Token) : FsState :=
  { dirExists := true, file := some (upsert (loadRecords fs) host t) }

/-! ## take_control -/

/-- The HTTP requests `take_control`, `activate_fci` and `deactivate_fci` can
issue. -/
inductive Req where
  | getControlToken
  | postControlTokenRequest (forced : Bool) (requestedBy : String)
  | getSafety
  | postFci (token : String)
  | deleteFci (token : String)
deriving DecidableEq, Repr

/-- The device-side environment a `take_control` call runs against:
the `activeToken` field of `GET /admin/api/control-token`; the `id` and
`token` fields of the `POST /admin/api/control-token/request` response; the
`tokenForceTimeout` of `GET /admin/api/safety` (seconds); and the time in
seconds until a `{"circle": true}` button event arrives on the navigation
channel (`none` when no press ever arrives). -/
structure TakeControlEnv where
  activeToken : Option ActiveTokenInfo
  grantId : Nat
  grantToken : String
  tokenForceTimeout : Nat
  circlePressTime : Option Nat
deriving DecidableEq, Repr

/-- Whether the circle-press confirmation arrives before
`trio.move_on_after(timeout)` cancels the wait (`desk.py` lines 199-204). -/
def confirmationReceived (env : TakeControlEnv) : Bool :=
  match env.circlePressTime with
  | some t => t < env.tokenForceTimeout
  | none => false

/-- What a `take_control` call produced: its return value, the HTTP requests
it issued in order, and the filesystem and desk state afterwards. -/
structure TCResult where
  ret : Bool
  requests : List Req
  fs : FsState
  desk : DeskState
deriving DecidableEq, Repr

/-- `Desk.take_control` (`desk.py` lines 164-209) over the explicit
environment. Control flow, in source order: legacy short-circuit; fetch the
active token; early `True` when the active id is non-empty and equals the
local id; early `False` when the active id is non-empty and `force` is unset;
otherwise `POST /admin/api/control-token/request[?force]`; when forced, read
`tokenForceTimeout` from `GET /admin/api/safety` and wait for the circle
press, giving up with `False` (persisting nothing) on timeout; finally
`_save_token(Token(str(id), username, token))` and return `True`. -/
def take_control (d : DeskState) (fs : FsState) (env : TakeControlEnv)
    (force : Bool) : TCResult :=
  if d.legacy then ⟨true, [], fs, d⟩
  else
    let active := get_active_token d.legacy env.activeToken
    if active.id != "" && d.token.id == active.id then
      ⟨true, [.getControlToken], fs, d⟩
    else if active.id != "" && !force then
      ⟨false, [.getControlToken], fs, d⟩
    else
      let reqs := [Req.getControlToken, .postControlTokenRequest force d.username]
      let newTok : Token := ⟨toString env.grantId, d.username, env.grantToken⟩
      if force then
        if confirmationReceived env then
          ⟨true, reqs ++ [.getSafety], save_token fs d.hostname newTok,
            { d with token := newTok }⟩
        else
          ⟨false, reqs ++ [.getSafety], fs, d⟩
      else
        ⟨true, reqs, save_token fs d.hostname newTok, { d with token := newTok }⟩

/-! ## set_mode and FCI -/

/-- Outcome of `Desk.set_mode` (`desk.py` lines 134-157): on platform
`'panda'` it prints that the operation is unsupported and returns without any
request; otherwise it posts to the mode's URL, or raises `ValueError` for an
unknown mode. -/
inductive SetModeResult where
  | unsupported
  | requested (url : String)
  | badMode
deriving DecidableEq, Repr

/-- `Desk.set_mode` (`desk.py` lines 134-157). -/
def set_mode (d : DeskState) (mode : String) : SetModeResult :=
  if d.platform == "panda" then .unsupported
  else if mode == "execution" then .requested "/desk/api/operating-mode/execution"
  else if mode == "programming" then .requested "/desk/api/operating-mode/programming"
  else .badMode

/-- `Desk.activate_fci` (`desk.py` lines 702-711): the requests issued —
none when legacy, otherwise a single `POST /admin/api/control-token/fci`. -/
def activate_fci (d : DeskState) : List Req :=
  if d.legacy then [] else [.postFci d.token.token]

/-- `Desk.deactivate_fci` (`desk.py` lines 713-721). -/
def deactivate_fci (d : DeskState) : List Req :=
  if d.legacy then [] else [.deleteFci d.token.token]

/-! ## Condition waits over scripted status streams

`wait_for_brakes_to_open` / `wait_for_brakes_to_close` (`desk.py` lines
637-649) consume the safety-status subscription in arrival order and return
on the first message whose `brakeState` satisfies the predicate. A scripted
run is embedded as the list of `brakeState` fields in arrival order; the
observable is the index of the message the wait resolves on (`none` when the
stream ends unresolved). -/

/-- `all(b == "Unlocked" for b in status['brakeState'])` (`desk.py` line 640-641). -/
def all_unlocked (brakeState : List String) : Bool :=
  brakeState.all (fun b => b == "Unlocked")

/-- `all(b == "Locked" for b in status['brakeState'])` (`desk.py` line 647-648). -/
def all_locked (brakeState : List String) : Bool :=
  brakeState.all (fun b => b == "Locked")

/-- Index of the first message an `async for` loop returns on, given the
per-message resolution predicate. -/
def firstResolve (p : α → Bool) : List α → Option Nat
  | [] => none
  | m :: ms => if p m then some 0 else (firstResolve p ms).map (· + 1)

/-- `Desk.wait_for_brakes_to_open` on a scripted stream of `brakeState`
fields: index of the message it resolves on. -/
def wait_for_brakes_to_open (statuses : List (List String)) : Option Nat :=
  firstResolve all_unlocked statuses

/-- `Desk.wait_for_brakes_to_close` on a scripted stream. -/
def wait_for_brakes_to_close (statuses : List (List String)) : Option Nat :=
  firstResolve all_locked statuses

/-! ## Password encoding

`Desk.encode_password` (`desk.py` lines 95-104) is
`base64.encodebytes(','.join(str(b) for b in sha256(utf8(password + "#" +
username + "@franka")).digest()).encode('utf-8')).decode('utf-8')`.
SHA-256 (FIPS 180-4) and `base64.encodebytes` (RFC 2045 base64: 57-byte
input chunks, each encoded to one newline-terminated line) are embedded as
executable functions on byte lists (`Nat` values below 256). -/

/-- Truncation to a 32-bit word. -/
def w32 (x : Nat) : Nat := x % 4294967296

/-- 32-bit right rotation (for `x < 2^32`, `1 ≤ n ≤ 31`). -/
def rotr (n x : Nat) : Nat := (x >>> n) + ((x % 2 ^ n) <<< (32 - n))

/-- SHA-256 Σ₀. -/
def bsig0 (x : Nat) : Nat := rotr 2 x ^^^ rotr 13 x ^^^ rotr 22 x

/-- SHA-256 Σ₁. -/
def bsig1 (x : Nat) : Nat := rotr 6 x ^^^ rotr 11 x ^^^ rotr 25 x

/-- SHA-256 σ₀. -/
def ssig0 (x : Nat) : Nat := rotr 7 x ^^^ rotr 18 x ^^^ (x >>> 3)

/-- SHA-256 σ₁. -/
def ssig1 (x : Nat) : Nat := rotr 17 x ^^^ rotr 19 x ^^^ (x >>> 10)

/-- SHA-256 Ch. -/
def ch (e f g : Nat) : Nat := (e &&& f) ^^^ ((e ^^^ 4294967295) &&& g)

/-- SHA-256 Maj. -/
def maj (a b c : Nat) : Nat := (a &&& b) ^^^ (a &&& c) ^^^ (b &&& c)

/-- The 64 SHA-256 round constants (decimal values of the FIPS 180-4
constants `K₀…K₆₃`). -/
def K : List Nat :=
  [1116352408, 1899447441, 3049323471, 3921009573, 961987163,
   1508970993, 2453635748, 2870763221, 3624381080, 310598401,
   607225278, 1426881987, 1925078388, 2162078206, 2614888103,
   3248222580, 3835390401, 4022224774, 264347078, 604807628,
   770255983, 1249150122, 1555081692, 1996064986, 2554220882,
   2821834349, 2952996808, 3210313671, 3336571891, 3584528711,
   113926993, 338241895, 666307205, 773529912, 1294757372,
   1396182291, 1695183700, 1986661051, 2177026350, 2456956037,
   2730485921, 2820302411, 3259730800, 3345764771, 3516065817,
   3600352804, 4094571909, 275423344, 430227734, 506948616,
   659060556, 883997877, 958139571, 1322822218, 1537002063,
   1747873779, 1955562222, 2024104815, 2227730452, 2361852424,
   2428436474, 2756734187, 3204031479, 3329325298]

/-- The SHA-256 initial hash value (decimal). -/
def H0 : List Nat :=
  [1779033703, 3144134277, 1013904242, 2773480762,
   1359893119, 2600822924, 528734635, 1541459225]

/-- Split a list into consecutive chunks of `n` elements (fuel-driven; the
fuel `l.length` suffices for any `n ≥ 1`). -/
def chunksAux (n : Nat) : Nat → List α → List (List α)
  | 0, _ => []
  | _, [] => []
  | fuel + 1, l => l.take n :: chunksAux n fuel (l.drop n)

/-- Split a list into consecutive chunks of `n` elements. -/
def chunks (n : Nat) (l : List α) : List (List α) := chunksAux n l.length l

/-- Big-endian byte rendering of `n` into `numBytes` bytes. -/
def beBytes (numBytes n : Nat) : List Nat :=
  (List.range numBytes).map (fun i => (n >>> (8 * (numBytes - 1 - i))) % 256)

/-- Big-endian word value of a byte list. -/
def beWord (bs : List Nat) : Nat := bs.foldl (fun acc b => acc * 256 + b) 0

/-- SHA-256 padding: append `0x80`, zero bytes up to 56 mod 64, then the
bit length as 8 big-endian bytes. -/
def padMessage (msg : List Nat) : List Nat :=
  let L := msg.length
  msg ++ [128] ++ List.replicate ((119 - L % 64) % 64) 0 ++ beBytes 8 (8 * L)

/-- Extend the 16-word message schedule by `k` further words. -/
def extendSchedule : Nat → List Nat → List Nat
  | 0, w => w
  | k + 1, w =>
      let n := w.length
      extendSchedule k (w ++ [w32 (ssig1 (w.getD (n - 2) 0) + w.getD (n - 7) 0 +
        ssig0 (w.getD (n - 15) 0) + w.getD (n - 16) 0)])

/-- The 64-word SHA-256 message schedule of one 64-byte block. -/
def msgSchedule (block : List Nat) : List Nat :=
  extendSchedule 48 ((chunks 4 block).map beWord)

/-- One SHA-256 compression round on the working variables `[a..h]`. -/
def compressRound (st : List Nat) (kw : Nat × Nat) : List Nat :=
  match st with
  | [a, b, c, d, e, f, g, h] =>
      let t1 := w32 (h + bsig1 e + ch e f g + kw.1 + kw.2)
      let t2 := w32 (bsig0 a + maj a b c)
      [w32 (t1 + t2), a, b, c, w32 (d + t1), e, f, g]
  | st => st

/-- Process one 64-byte block into the intermediate hash. -/
def processBlock (h : List Nat) (block : List Nat) : List Nat :=
  let st := (K.zip (msgSchedule block)).foldl compressRound h
  (h.zip st).map (fun p => w32 (p.1 + p.2))

/-- SHA-256 digest (32 bytes) of a byte list. -/
def sha256 (msg : List Nat) : List Nat :=
  (((chunks 64 (padMessage msg)).foldl processBlock H0).map (beBytes 4)).flatten

/-- UTF-8 encoding of one character. -/
def utf8EncodeChar (c : Char) : List Nat :=
  let n := c.toNat
  if n < 128 then [n]
  else if n < 2048 then [192 + n / 64, 128 + n % 64]
  else if n < 65536 then [224 + n / 4096, 128 + n / 64 % 64, 128 + n % 64]
  else [240 + n / 262144, 128 + n / 4096 % 64, 128 + n / 64 % 64, 128 + n % 64]

/-- UTF-8 encoding of a string (`str.encode('utf-8')`). -/
def utf8Encode (s : String) : List Nat := (s.data.map utf8EncodeChar).flatten

/-- The base64 alphabet character at index `n`. -/
def b64Char (n : Nat) : Char :=
  "ABCDEFGHIJKLMNOPQRSTUVWXYZabcdefghijklmnopqrstuvwxyz0123456789+/".data.getD n 'A'

/-- Standard base64 encoding of a byte list, with `=` padding. -/
def b64EncodeGroups : List Nat → List Char
  | [] => []
  | [a] => [b64Char (a / 4), b64Char (a % 4 * 16), '=', '=']
  | [a, b] => [b64Char (a / 4), b64Char (a % 4 * 16 + b / 16), b64Char (b % 16 * 4), '=']
  | a :: b :: c :: rest =>
      [b64Char (a / 4), b64Char (a % 4 * 16 + b / 16), b64Char (b % 16 * 4 + c / 64),
        b64Char (c % 64)] ++ b64EncodeGroups rest

/-- `base64.encodebytes`: encode 57-byte input chunks, each to one
newline-terminated base64 line. -/
def encodebytes (bs : List Nat) : List Char :=
  ((chunks 57 bs).map (fun c => b64EncodeGroups c ++ ['\n'])).flatten

/-- Build a string from its character list. -/
def strOfChars (l : List Char) : String := ⟨l⟩

/-- `Desk.encode_password` (`desk.py` lines 95-104): the comma-joined decimal
byte values of the SHA-256 digest of the UTF-8 encoding of
`password + "#" + username + "@franka"`, passed through `base64.encodebytes`
and decoded back to text. -/
def encode_password (username password : String) : String :=
  let bytes_str := String.intercalate ","
    ((sha256 (utf8Encode (password ++ "#" ++ username ++ "@franka"))).map
      (fun b => toString b))
  strOfChars (encodebytes (utf8Encode bytes_str))

/-- The digest formula as the specification words it: the base64 encoding
(as the module performs it) of the comma-joined decimal byte values of the
SHA-256 digest of the UTF-8 encoding of `password + "#" + username +
"@franka"`. Stated separately from `encode_password` to compare the code
against the spec's formula. -/
def encodePasswordFormula (username password : String) : String :=
  strOfChars (encodebytes (utf8Encode (String.intercalate ","
    ((sha256 (utf8Encode (password ++ "#" ++ username ++ "@franka"))).map
      (fun b => toString b)))))

/-! ## Helper lemmas -/

/-- `Nat.toDigitsCore` never empties a non-empty accumulator. -/
theorem toDigitsCore_ne_nil (b : Nat) :
    ∀ (fuel n : Nat) (ds : List Char), ds ≠ [] → Nat.toDigitsCore b fuel n ds ≠ []
  | 0, _, _, h => h
  | fuel + 1, n, _, _ => by
      simp only [Nat.toDigitsCore]
      split
      · exact List.cons_ne_nil _ _
      · exact toDigitsCore_ne_nil b fuel (n / b) _ (List.cons_ne_nil _ _)

/-- The digit list of a natural number is never empty. -/
theorem toDigits_ne_nil (b n : Nat) : Nat.toDigits b n ≠ [] := by
  show Nat.toDigitsCore b (n + 1) n [] ≠ []
  simp only [Nat.toDigitsCore]
  split
  · exact List.cons_ne_nil _ _
  · exact toDigitsCore_ne_nil b n _ _ (List.cons_ne_nil _ _)

/-- `str(...)` of a numeric token id is never the empty string, so a device
response with a non-null `activeToken` always yields a non-empty active id. -/
theorem natToString_ne_empty (n : Nat) : toString n ≠ "" := by
  show (Nat.toDigits 10 n).asString ≠ ""
  intro h
  exact toDigits_ne_nil 10 n (congrArg String.data h)

/-- The host's entry after `upsert` is the saved token. -/
theorem lookup_upsert_self (store : TokenStore) (host : String) (t : Token) :
    List.lookup host (upsert store host t) = some t := by
  induction store with
  | nil => simp [upsert, List.lookup]
  | cons p rest ih =>
      cases hk : p.1 == host with
      | true =>
          simp [upsert, hk, List.lookup]
      | false =>
          have hh : (host == p.1) = false :=
            beq_eq_false_iff_ne.mpr (Ne.symm (ne_of_beq_false hk))
          simp only [upsert, hk, Bool.false_eq_true, if_false, List.lookup, hh]
          exact ih

/-- Other hosts' entries are untouched by `upsert`. -/
theorem lookup_upsert_other (store : TokenStore) (host h2 : String) (t : Token)
    (hne : h2 ≠ host) :
    List.lookup h2 (upsert store host t) = List.lookup h2 store := by
  induction store with
  | nil => simp [upsert, List.lookup, beq_eq_false_iff_ne.mpr hne]
  | cons p rest ih =>
      cases hk : p.1 == host with
      | true =>
          have hp : p.1 = host := beq_iff_eq.mp hk
          have hh : (h2 == host) = false := beq_eq_false_iff_ne.mpr hne
          have hh2 : (h2 == p.1) = false := beq_eq_false_iff_ne.mpr (hp ▸ hne)
          simp [upsert, hk, List.lookup, hh, hh2]
      | false =>
          simp only [upsert, hk, Bool.false_eq_true, if_false, List.lookup]
          cases hc : h2 == p.1 with
          | true => rfl
          | false => exact ih

/-- A stream wait driven by `firstResolve` resolves on a message satisfying
the predicate, and on no earlier message. -/
theorem firstResolve_spec (p : α → Bool) :
    ∀ (l : List α) (i : Nat), firstResolve p l = some i →
      (∀ m, l[i]? = some m → p m = true) ∧
      (∀ j m, j < i → l[j]? = some m → p m = false) := by
  intro l
  induction l with
  | nil => intro i h; simp [firstResolve] at h
  | cons x xs ih =>
      intro i h
      by_cases hp : p x = true
      · simp only [firstResolve, hp, if_true] at h
        cases h
        refine ⟨?_, ?_⟩
        · intro m hm
          simp only [List.getElem?_cons_zero, Option.some.injEq] at hm
          exact hm ▸ hp
        · intro j m hj
          omega
      · have hp2 : p x = false := by simpa using hp
        simp only [firstResolve, hp2, Bool.false_eq_true, if_false] at h
        obtain ⟨i2, hi2, hadd⟩ := Option.map_eq_some'.mp h
        subst hadd
        obtain ⟨h1, h2⟩ := ih i2 hi2
        refine ⟨?_, ?_⟩
        · intro m hm
          simp only [List.getElem?_cons_succ] at hm
          exact h1 m hm
        · intro j m hj hm
          cases j with
          | zero =>
              simp only [List.getElem?_cons_zero, Option.some.injEq] at hm
              exact hm ▸ hp2
          | succ j2 =>
              simp only [List.getElem?_cons_succ] at hm
              exact h2 j2 m (by omega) hm

/-! ## Sanity checks of the hash/encoding embedding against published test
vectors (FIPS 180-4 examples and a digest computed by the formula) -/

set_option maxRecDepth 10000 in
/-- SHA-256 of the empty message. -/
theorem sha256_empty_vector : sha256 [] =
    [227, 176, 196, 66, 152, 252, 28, 20, 154, 251, 244, 200, 153, 111, 185, 36,
     39, 174, 65, 228, 100, 155, 147, 76, 164, 149, 153, 27, 120, 82, 184, 85] := by decide

set_option maxRecDepth 10000 in
/-- SHA-256 of `"abc"`. -/
theorem sha256_abc_vector : sha256 (utf8Encode "abc") =
    [186, 120, 22, 191, 143, 1, 207, 234, 65, 65, 64, 222, 93, 174, 34, 35,
     176, 3, 97, 163, 150, 23, 122, 156, 180, 16, 255, 97, 242, 0, 21, 173] := by decide

set_option maxRecDepth 10000 in
/-- The digest for username `a`, password `b`, as the formula produces it
(note the line break after 76 output characters and the trailing newline
that `base64.encodebytes` inserts). -/
theorem encode_password_reference_vector : encode_password "a" "b" =
    "MTg1LDIwMSwyNTEsMTYsMTQ3LDU2LDE3NiwxOTgsMjA5LDIxMywxMDUsMTQyLDE5NCwxMjksNzUs\nMTQxLDEwMSwxNDcsNzUsMTA4LDM0LDc1LDMsMTgyLDgsMzQsMjUzLDI0OCwxMDcsMTM1LDIzLDky\n" := by decide

/-! ## Claims -/

/-- C1 (counterexample): the claim says an error is raised exactly on non-2xx
statuses and that any success (2xx) status returns without error; but on
status 201 — a 2xx success — `_request` raises, because the code tests
`status_code != 200`. -/
theorem requestOutcome_201_counterexample :
    requestOutcome 201 "created" = Except.error "created" ∧ 200 ≤ 201 ∧ 201 < 300 :=
  ⟨rfl, by decide, by decide⟩

/-- C1 (amended): `_request` raises an error carrying the response body text
unmodified exactly when the status is not 200; on status 200 the response is
returned without error. -/
theorem requestOutcome_error_iff (status : Nat) (body : String) :
    (requestOutcome status body = Except.error body ↔ status ≠ 200) ∧
    (status = 200 → requestOutcome status body = Except.ok (status, body)) := by
  constructor
  · constructor
    · intro h hs
      subst hs
      simp [requestOutcome] at h
    · intro hs
      simp [requestOutcome, bne_iff_ne.mpr hs]
  · intro hs
    subst hs
    simp [requestOutcome]

/-- Witness for C1 (amended) at statuses 404 and 200. -/
theorem requestOutcome_error_iff_witness :
    requestOutcome 404 "oops" = Except.error "oops" ∧
    requestOutcome 200 "fine" = Except.ok (200, "fine") :=
  ⟨(requestOutcome_error_iff 404 "oops").1.mpr (by decide),
   (requestOutcome_error_iff 200 "fine").2 rfl⟩

/-- C2: a forced `take_control` call that reaches the confirmation wait (the
call is not the early already-in-control return) and whose circle press does
not arrive within the `tokenForceTimeout` read from the safety endpoint
returns `False`, leaves the token store untouched and the desk state
unchanged. -/
theorem take_control_force_timeout (d : DeskState) (fs : FsState) (env : TakeControlEnv)
    (hleg : d.legacy = false)
    (hearly : ((get_active_token false env.activeToken).id != "" &&
      d.token.id == (get_active_token false env.activeToken).id) = false)
    (hconf : confirmationReceived env = false) :
    take_control d fs env true =
      ⟨false, [.getControlToken, .postControlTokenRequest true d.username, .getSafety],
        fs, d⟩ := by
  simp [take_control, hleg, hearly, hconf]

/-- Witness for C2: a session with no local token, while `bob` holds token 7
and no press ever arrives. -/
theorem take_control_force_timeout_witness :
    take_control ⟨"robot", "fr3", false, true, "alice", ⟨"", "", ""⟩⟩ ⟨true, some []⟩
      ⟨some ⟨7, "bob"⟩, 9, "sec", 10, none⟩ true =
      ⟨false, [.getControlToken, .postControlTokenRequest true "alice", .getSafety],
        ⟨true, some []⟩, ⟨"robot", "fr3", false, true, "alice", ⟨"", "", ""⟩⟩⟩ :=
  take_control_force_timeout _ _ _ rfl (by decide) rfl

/-- C3: a forced `take_control` call that reaches the confirmation wait and
receives the circle press before the timeout persists under the session's
hostname a token whose id is the device-issued id, whose owner is the
session's username and whose secret is the device-issued token value, sets it
as the in-memory token, and returns `True`. -/
theorem take_control_force_confirmed (d : DeskState) (fs : FsState) (env : TakeControlEnv)
    (hleg : d.legacy = false)
    (hearly : ((get_active_token false env.activeToken).id != "" &&
      d.token.id == (get_active_token false env.activeToken).id) = false)
    (hconf : confirmationReceived env = true) :
    (take_control d fs env true).ret = true ∧
    (take_control d fs env true).desk.token =
      ⟨toString env.grantId, d.username, env.grantToken⟩ ∧
    List.lookup d.hostname (loadRecords (take_control d fs env true).fs) =
      some ⟨toString env.grantId, d.username, env.grantToken⟩ := by
  have hres : take_control d fs env true =
      ⟨true, [.getControlToken, .postControlTokenRequest true d.username, .getSafety],
        save_token fs d.hostname ⟨toString env.grantId, d.username, env.grantToken⟩,
        { d with token := ⟨toString env.grantId, d.username, env.grantToken⟩ }⟩ := by
    simp [take_control, hleg, hearly, hconf]
  rw [hres]
  refine ⟨rfl, rfl, ?_⟩
  simp only [save_token, loadRecords, Option.getD_some]
  exact lookup_upsert_self (loadRecords fs) d.hostname _

/-- Witness for C3: the press arrives after 3 of the 10 allotted seconds. -/
theorem take_control_force_confirmed_witness :
    (take_control ⟨"robot", "fr3", false, true, "alice", ⟨"", "", ""⟩⟩ ⟨true, some []⟩
        ⟨some ⟨7, "bob"⟩, 9, "sec", 10, some 3⟩ true).ret = true ∧
    (take_control ⟨"robot", "fr3", false, true, "alice", ⟨"", "", ""⟩⟩ ⟨true, some []⟩
        ⟨some ⟨7, "bob"⟩, 9, "sec", 10, some 3⟩ true).desk.token = ⟨"9", "alice", "sec"⟩ ∧
    List.lookup "robot" (loadRecords
        (take_control ⟨"robot", "fr3", false, true, "alice", ⟨"", "", ""⟩⟩ ⟨true, some []⟩
          ⟨some ⟨7, "bob"⟩, 9, "sec", 10, some 3⟩ true).fs) = some ⟨"9", "alice", "sec"⟩ :=
  take_control_force_confirmed ⟨"robot", "fr3", false, true, "alice", ⟨"", "", ""⟩⟩
    ⟨true, some []⟩ ⟨some ⟨7, "bob"⟩, 9, "sec", 10, some 3⟩ rfl (by decide) rfl

/-- C4: an unforced `take_control` call while the device reports an active
token whose id differs from the local token's id returns `False` having
issued only the active-token query: no `/admin/api/control-token/request`
request, no store write, no state change. -/
theorem take_control_held_by_other (d : DeskState) (fs : FsState) (env : TakeControlEnv)
    (a : ActiveTokenInfo) (hleg : d.legacy = false) (hresp : env.activeToken = some a)
    (hne : d.token.id ≠ toString a.id) :
    take_control d fs env false = ⟨false, [.getControlToken], fs, d⟩ := by
  have hid : (get_active_token false env.activeToken).id = toString a.id := by
    simp [get_active_token, hresp]
  have h1 : ((get_active_token false env.activeToken).id != "") = true := by
    rw [hid]
    exact bne_iff_ne.mpr (natToString_ne_empty a.id)
  have h2 : (d.token.id == (get_active_token false env.activeToken).id) = false := by
    rw [hid]
    exact beq_eq_false_iff_ne.mpr hne
  simp [take_control, hleg, h1, h2]

/-- Witness for C4: `bob` holds token 7, the local token has id `"1"`. -/
theorem take_control_held_by_other_witness :
    take_control ⟨"robot", "fr3", false, true, "alice", ⟨"1", "alice", "old"⟩⟩
      ⟨true, some [("robot", ⟨"1", "alice", "old"⟩)]⟩
      ⟨some ⟨7, "bob"⟩, 9, "sec", 10, none⟩ false =
      ⟨false, [.getControlToken], ⟨true, some [("robot", ⟨"1", "alice", "old"⟩)]⟩,
        ⟨"robot", "fr3", false, true, "alice", ⟨"1", "alice", "old"⟩⟩⟩ :=
  take_control_held_by_other _ _ _ ⟨7, "bob"⟩ rfl rfl (by decide)

set_option maxRecDepth 4000 in
/-- C5 (counterexample): when the device reports *no* active token and the
local token is the empty sentinel, the local id equals the device's active
id (both `""`), yet `take_control(force=false)` posts to
`/admin/api/control-token/request` and writes the store — the early-return
requires a *non-empty* matching id, so the claim's "returns true without
issuing a request and without persisting" fails at this input. -/
theorem take_control_empty_id_counterexample :
    (Token.mk "" "" "").id = (get_active_token false none).id ∧
    (take_control ⟨"robot", "fr3", false, true, "alice", ⟨"", "", ""⟩⟩ ⟨false, none⟩
        ⟨none, 9, "sec", 10, none⟩ false).requests =
      [.getControlToken, .postControlTokenRequest false "alice"] ∧
    (take_control ⟨"robot", "fr3", false, true, "alice", ⟨"", "", ""⟩⟩ ⟨false, none⟩
        ⟨none, 9, "sec", 10, none⟩ false).fs ≠ ⟨false, none⟩ := by
  decide

/-- C5 (amended): when the device reports an active token (necessarily of
non-empty id) whose id equals the local token's id, `take_control` returns
`True` having issued only the active-token query — nothing is persisted and
no token request is posted — and this holds for either value of `force`, so
the equality check takes precedence over the force flag. -/
theorem take_control_already_held (d : DeskState) (fs : FsState) (env : TakeControlEnv)
    (force : Bool) (a : ActiveTokenInfo) (hleg : d.legacy = false)
    (hresp : env.activeToken = some a) (heq : d.token.id = toString a.id) :
    take_control d fs env force = ⟨true, [.getControlToken], fs, d⟩ := by
  have hid : (get_active_token false env.activeToken).id = toString a.id := by
    simp [get_active_token, hresp]
  have h1 : ((get_active_token false env.activeToken).id != "") = true := by
    rw [hid]
    exact bne_iff_ne.mpr (natToString_ne_empty a.id)
  have h2 : (d.token.id == (get_active_token false env.activeToken).id) = true := by
    rw [hid]
    exact beq_iff_eq.mpr heq
  simp [take_control, hleg, h1, h2]

/-- Witness for C5 (amended): the session already holds token 7, with
`force = true`. -/
theorem take_control_already_held_witness :
    take_control ⟨"robot", "fr3", false, true, "alice", ⟨"7", "alice", "sec"⟩⟩
      ⟨true, some [("robot", ⟨"7", "alice", "sec"⟩)]⟩
      ⟨some ⟨7, "alice"⟩, 9, "new", 10, none⟩ true =
      ⟨true, [.getControlToken], ⟨true, some [("robot", ⟨"7", "alice", "sec"⟩)]⟩,
        ⟨"robot", "fr3", false, true, "alice", ⟨"7", "alice", "sec"⟩⟩⟩ :=
  take_control_already_held _ _ _ true ⟨7, "alice"⟩ rfl rfl (by decide)

set_option maxRecDepth 4000 in
/-- C6 (counterexample): a `Desk` constructed for the legacy platform
(`platform='panda'`) has `_legacy = False` — the constructor never sets the
flag — so `take_control` on it is *not* a no-op (it issues the active-token
query and even posts a token request) and `activate_fci` issues its request
too, contrary to the claim that these operations issue no network requests on
the legacy platform variant. -/
theorem legacy_platform_not_noop_counterexample :
    mkDesk "robot" "panda" ⟨"", "", ""⟩ =
      some ⟨"robot", "panda", false, false, "Not set", ⟨"", "", ""⟩⟩ ∧
    (take_control ⟨"robot", "panda", false, false, "Not set", ⟨"", "", ""⟩⟩ ⟨false, none⟩
        ⟨none, 9, "sec", 10, none⟩ false).requests ≠ [] ∧
    activate_fci ⟨"robot", "panda", false, false, "Not set", ⟨"", "", ""⟩⟩ ≠ [] := by
  decide

/-- C6 (amended): the trivial no-op behavior of `take_control`,
`activate_fci` and `deactivate_fci` is guarded by the internal `_legacy` flag
— when it is set they issue no requests and `take_control` returns `True` —
but the constructor always initializes that flag to `False`, including for
the legacy platform `'panda'`; `set_mode`, by contrast, keys on the platform
string and reports the operation as unsupported on `'panda'` without
attempting the call. -/
theorem legacy_flag_noops (d : DeskState) (fs : FsState) (env : TakeControlEnv)
    (force : Bool) (mode hname : String) (loaded : Token) (d2 : DeskState) :
    (d.legacy = true → take_control d fs env force = ⟨true, [], fs, d⟩ ∧
      activate_fci d = [] ∧ deactivate_fci d = []) ∧
    (mkDesk hname "panda" loaded = some d2 → d2.legacy = false) ∧
    (d.platform = "panda" → set_mode d mode = .unsupported) := by
  refine ⟨?_, ?_, ?_⟩
  · intro h
    exact ⟨by simp [take_control, h], by simp [activate_fci, h], by simp [deactivate_fci, h]⟩
  · intro h
    simp only [mkDesk] at h
    split at h
    · injection h with h3
      subst h3
      rfl
    · exact Option.noConfusion h
  · intro h
    simp [set_mode, beq_iff_eq.mpr h]

set_option maxRecDepth 4000 in
/-- Witness for C6 (amended), at a desk with the legacy flag forced on, the
constructed `'panda'` desk, and a `'panda'`-platform desk calling
`set_mode`. -/
theorem legacy_flag_noops_witness :
    (take_control ⟨"r", "fr3", true, false, "u", ⟨"", "", ""⟩⟩ ⟨false, none⟩
        ⟨none, 1, "s", 1, none⟩ true =
      ⟨true, [], ⟨false, none⟩, ⟨"r", "fr3", true, false, "u", ⟨"", "", ""⟩⟩⟩ ∧
      activate_fci ⟨"r", "fr3", true, false, "u", ⟨"", "", ""⟩⟩ = [] ∧
      deactivate_fci ⟨"r", "fr3", true, false, "u", ⟨"", "", ""⟩⟩ = []) ∧
    (⟨"h", "panda", false, false, "Not set", ⟨"", "", ""⟩⟩ : DeskState).legacy = false ∧
    set_mode ⟨"r2", "panda", false, false, "u", ⟨"", "", ""⟩⟩ "execution" = .unsupported := by
  have h1 := legacy_flag_noops ⟨"r", "fr3", true, false, "u", ⟨"", "", ""⟩⟩ ⟨false, none⟩
    ⟨none, 1, "s", 1, none⟩ true "execution" "h" ⟨"", "", ""⟩
    ⟨"h", "panda", false, false, "Not set", ⟨"", "", ""⟩⟩
  have h2 := legacy_flag_noops ⟨"r2", "panda", false, false, "u", ⟨"", "", ""⟩⟩ ⟨false, none⟩
    ⟨none, 1, "s", 1, none⟩ true "execution" "h" ⟨"", "", ""⟩
    ⟨"h", "panda", false, false, "Not set", ⟨"", "", ""⟩⟩
  exact ⟨h1.1 rfl, h1.2.1 (by decide), h2.2.2 rfl⟩

/-- C7: `encode_password` is deterministic — equal inputs give equal digests —
and equals the formula the spec states: the base64 encoding (as the module
performs it, `base64.encodebytes`) of the comma-joined decimal byte values of
the SHA-256 digest of the UTF-8 encoding of
`password + "#" + username + "@franka"`. -/
theorem encode_password_formula (u p u2 p2 : String) :
    encode_password u p = encodePasswordFormula u p ∧
    (u = u2 → p = p2 → encode_password u p = encode_password u2 p2) := by
  refine ⟨rfl, ?_⟩
  intro h1 h2
  rw [h1, h2]

/-- Witness for C7 at username `a`, password `b`. -/
theorem encode_password_formula_witness :
    encode_password "a" "b" = encodePasswordFormula "a" "b" ∧
    encode_password "a" "b" = encode_password "a" "b" :=
  ⟨(encode_password_formula "a" "b" "a" "b").1,
   (encode_password_formula "a" "b" "a" "b").2 rfl rfl⟩

/-- C8: `_save_token` creates the store file's parent directory, maps the
saved host to exactly the saved token, and leaves every other host's entry
exactly as it was before the save. -/
theorem save_token_frame (fs : FsState) (host : String) (t : Token) :
    (save_token fs host t).dirExists = true ∧
    List.lookup host (loadRecords (save_token fs host t)) = some t ∧
    ∀ h2, h2 ≠ host →
      List.lookup h2 (loadRecords (save_token fs host t)) =
        List.lookup h2 (loadRecords fs) := by
  refine ⟨rfl, ?_, ?_⟩
  · simp only [save_token, loadRecords, Option.getD_some]
    exact lookup_upsert_self (loadRecords fs) host t
  · intro h2 hne
    simp only [save_token, loadRecords, Option.getD_some]
    exact lookup_upsert_other (loadRecords fs) host h2 t hne

/-- Witness for C8: saving `robot`'s token preserves `other`'s entry from a
store whose directory did not yet exist. -/
theorem save_token_frame_witness :
    (save_token ⟨false, some [("other", ⟨"1", "bob", "s"⟩)]⟩ "robot"
      ⟨"2", "alice", "s2"⟩).dirExists = true ∧
    List.lookup "robot" (loadRecords (save_token ⟨false, some [("other", ⟨"1", "bob", "s"⟩)]⟩
      "robot" ⟨"2", "alice", "s2"⟩)) = some ⟨"2", "alice", "s2"⟩ ∧
    List.lookup "other" (loadRecords (save_token ⟨false, some [("other", ⟨"1", "bob", "s"⟩)]⟩
      "robot" ⟨"2", "alice", "s2"⟩)) =
      List.lookup "other" (loadRecords ⟨false, some [("other", ⟨"1", "bob", "s"⟩)]⟩) :=
  have h := save_token_frame ⟨false, some [("other", ⟨"1", "bob", "s"⟩)]⟩ "robot"
    ⟨"2", "alice", "s2"⟩
  ⟨h.1, h.2.1, h.2.2 "other" (by decide)⟩

/-- C9: `wait_for_brakes_to_open` resolves on the first message all seven of
whose `brakeState` entries are `"Unlocked"` — the resolving message never
contains a `"Locked"` entry, no earlier message satisfies the predicate —
and on the scripted sequence `[Locked×7]`, mixed, `[Unlocked×7]` it resolves
on the third message (index 2). -/
theorem wait_for_brakes_to_open_spec :
    (∀ (msgs : List (List String)) (i : Nat) (m : List String),
        wait_for_brakes_to_open msgs = some i → msgs[i]? = some m →
          all_unlocked m = true ∧ "Locked" ∉ m) ∧
    (∀ (msgs : List (List String)) (j i : Nat) (m : List String),
        wait_for_brakes_to_open msgs = some j → i < j → msgs[i]? = some m →
          all_unlocked m = false) ∧
    wait_for_brakes_to_open
      [List.replicate 7 "Locked",
       ["Unlocked", "Locked", "Unlocked", "Unlocked", "Unlocked", "Unlocked", "Unlocked"],
       List.replicate 7 "Unlocked"] = some 2 := by
  refine ⟨?_, ?_, by decide⟩
  · intro msgs i m hw hm
    have h := (firstResolve_spec all_unlocked msgs i hw).1 m hm
    refine ⟨h, ?_⟩
    intro hmem
    have h2 := List.all_eq_true.mp h _ hmem
    simp at h2
  · intro msgs j i m hw hij hm
    exact (firstResolve_spec all_unlocked msgs j hw).2 i m hij hm

/-- Witness for C9, instantiating both universal parts on the scripted
sequence the claim names. -/
theorem wait_for_brakes_to_open_spec_witness :
    (all_unlocked (List.replicate 7 "Unlocked") = true ∧
      "Locked" ∉ List.replicate 7 "Unlocked") ∧
    all_unlocked (List.replicate 7 "Locked") = false := by
  have h := wait_for_brakes_to_open_spec
  exact ⟨h.1 _ 2 _ h.2.2 (by decide), h.2.1 _ 2 0 _ h.2.2 (by decide) (by decide)⟩

/-- C10 (implicit): when the device reports no active token (`activeToken`
null) the reconstructed active token has the empty id, so a session holding
the empty-sentinel token passes the id comparison and `check_has_control`
returns `True` even though no identity holds control. -/
theorem check_has_control_vacuous (d : DeskState) (h : d.token.id = "") :
    (get_active_token d.legacy none).id = "" ∧ check_has_control d none = true := by
  have hid : (get_active_token d.legacy none).id = "" := by
    cases d.legacy <;> simp [get_active_token]
  exact ⟨hid, by simp [check_has_control, h, hid]⟩

/-- Witness for C10: a freshly constructed session with the sentinel token. -/
theorem check_has_control_vacuous_witness :
    (get_active_token false none).id = "" ∧
    check_has_control ⟨"robot", "fr3", false, false, "Not set", ⟨"", "", ""⟩⟩ none = true :=
  check_has_control_vacuous ⟨"robot", "fr3", false, false, "Not set", ⟨"", "", ""⟩⟩ rfl

end PandaDesk
